import Mathlib

/-!
Shallow embedding of the frame-lifecycle and analysis pipeline of
server.js (maseru-traffic-bot).  Pure data is modelled directly; the
stateful parts (rolling screenshot buffer, preserved frames, latest
analysis slot) are modelled as explicit state passing; the external
collaborators (vision model, vehicle detector, generative call) are
modelled as oracle inputs, with the outputs recording which external
calls were made.  Machine time is modelled as Nat milliseconds; the
JavaScript expression now - t, which can be negative, compares below
a positive bound only, and Nat truncated subtraction agrees with it
on those comparisons.
-/

set_option maxRecDepth 4000

namespace Maseru

/-- Camera angle categories, ANGLE_TYPES in server.js. -/
inductive Angle
  | bridge
  | processing
  | wide
  | useless
deriving DecidableEq

/-- One captured frame: image bytes are abstracted to a Nat surrogate,
capture timestamp in ms, and the classified angle. -/
structure Frame where
  img : Nat
  timestamp : Nat
  angleType : Angle
deriving DecidableEq

/-- config.maxBufferSize in server.js. -/
def maxBufferSize : Nat := 12

/-- config.cacheTimeout in server.js (latest-analysis TTL, ms). -/
def cacheTimeout : Nat := 180000

/-- CACHE_TTL in server.js (category response cache TTL, ms). -/
def CACHE_TTL : Nat := 120000

/-- MAX_FRAME_AGE_MS in server.js (preserved-frame freshness bound). -/
def MAX_FRAME_AGE_MS : Nat := 10 * 60 * 1000

/-- isFrameFresh in server.js.  The JS code also rejects a frame whose
timestamp field is falsy (0), hence the first test. -/
def isFrameFresh (now : Nat) (f : Frame) : Bool :=
  if f.timestamp = 0 then false
  else decide (now - f.timestamp ≤ MAX_FRAME_AGE_MS)

/-- preservedFrames in server.js: one slot per useful angle. -/
structure Preserved where
  bridge : Option Frame
  processing : Option Frame
  wide : Option Frame
deriving DecidableEq

/-- Read the slot of an angle; the useless key is absent from the JS
object, modelled as a constant none. -/
def Preserved.get (p : Preserved) : Angle → Option Frame
  | Angle.bridge => p.bridge
  | Angle.processing => p.processing
  | Angle.wide => p.wide
  | Angle.useless => none

/-- Overwrite the slot of an angle; writing to the useless key is a
no-op because preservedFrames.hasOwnProperty rejects it. -/
def Preserved.set (p : Preserved) (a : Angle) (f : Frame) : Preserved :=
  match a with
  | Angle.bridge => { p with bridge := some f }
  | Angle.processing => { p with processing := some f }
  | Angle.wide => { p with wide := some f }
  | Angle.useless => p

/-- The frame-store state: screenshotBuffer plus preservedFrames. -/
structure FrameStore where
  buffer : List Frame
  preserved : Preserved
deriving DecidableEq

/-- The preserved-slot update performed by captureFrame: only frames
whose angle is not useless overwrite their slot. -/
def updatePreserved (p : Preserved) (f : Frame) : Preserved :=
  if f.angleType = Angle.useless then p else p.set f.angleType f

/-- slice(-n) on a JS array: the n most recent elements, in order. -/
def sliceLast (n : Nat) (l : List α) : List α :=
  l.drop (l.length - n)

/-- The buffer/preserved mutation performed by one successful capture
in captureFrame (push, preserve, then trim to maxBufferSize). -/
def record (s : FrameStore) (f : Frame) : FrameStore :=
  let buf := s.buffer ++ [f]
  let pres := updatePreserved s.preserved f
  let buf2 := if maxBufferSize < buf.length then sliceLast maxBufferSize buf else buf
  { buffer := buf2, preserved := pres }

/-- Server start state: empty buffer, empty preserved slots. -/
def initialStore : FrameStore :=
  { buffer := [], preserved := { bridge := none, processing := none, wide := none } }

/-- Record a whole capture sequence, oldest first. -/
def recordAll (fs : List Frame) : FrameStore :=
  fs.foldl record initialStore

/-- Most recent element of a list satisfying a predicate. -/
def lastWith (p : Frame → Bool) (fs : List Frame) : Option Frame :=
  fs.foldl (fun acc f => if p f then some f else acc) none

/-- usefulFrames: buffered frames whose angle is not useless, in
capture order (the filter at the top of analyzeTraffic). -/
def usefulFrames (buf : List Frame) : List Frame :=
  buf.filter (fun f => decide (f.angleType ≠ Angle.useless))

/-- framesByAngle lookup: the useful buffered frames of one angle, in
capture order. -/
def framesOfAngle (buf : List Frame) (a : Angle) : List Frame :=
  (usefulFrames buf).filter (fun f => decide (f.angleType = a))

/-- Key order of the framesByAngle object: angles in order of first
appearance among the useful buffered frames. -/
def angleKeys (buf : List Frame) : List Angle :=
  (usefulFrames buf).foldl
    (fun acc f => if f.angleType ∈ acc then acc else acc ++ [f.angleType]) []

/-- The backfill scan of analyzeTraffic: the angle with the most
buffered frames, first key winning ties (strict comparison against a
running maxCount starting at 0). -/
def bestAngleScan (buf : List Frame) : Option Angle × Nat :=
  (angleKeys buf).foldl
    (fun acc a =>
      if acc.2 < (framesOfAngle buf a).length then (some a, (framesOfAngle buf a).length)
      else acc)
    (none, 0)

/-- The bestAngle variable of the backfill step. -/
def bestAngle (buf : List Frame) : Option Angle :=
  (bestAngleScan buf).1

/-- anglePriority in analyzeTraffic: bridge first, then processing,
then wide. -/
def anglePriority : List Angle := [Angle.bridge, Angle.processing, Angle.wide]

/-- One step of the per-angle selection pass: the most recent buffered
frame of the angle if any, else the preserved frame if fresh, else
nothing. -/
def pickForAngle (now : Nat) (s : FrameStore) (a : Angle) : Option Frame :=
  match (framesOfAngle s.buffer a).getLast? with
  | some f => some f
  | none =>
    match s.preserved.get a with
    | some pf => if isFrameFresh now pf then some pf else none
    | none => none

/-- The per-angle selection pass over anglePriority. -/
def passSelection (now : Nat) (s : FrameStore) : List Frame :=
  anglePriority.filterMap (pickForAngle now s)

/-- The backfill push loop: stop at 3 selected frames, skip frames
already selected (the includes check). -/
def addUpTo3 (acc : List Frame) : List Frame → List Frame
  | [] => acc
  | f :: rest =>
    if 3 ≤ acc.length then acc
    else if f ∈ acc then addUpTo3 acc rest
    else addUpTo3 (acc ++ [f]) rest

/-- The backfill step of analyzeTraffic: when fewer than 3 frames were
selected, push the remaining frames of the most populated angle,
excluding its already-selected most recent frame, in reverse order
(that is, most recent of the remainder first). -/
def backfill (s : FrameStore) (acc : List Frame) : List Frame :=
  match bestAngle s.buffer with
  | none => acc
  | some b =>
    if 1 < (framesOfAngle s.buffer b).length then
      addUpTo3 acc ((framesOfAngle s.buffer b).dropLast.reverse)
    else acc

/-- The frame selection of analyzeTraffic (the Frame Selector): the
per-angle pass followed by the backfill step when short of 3. -/
def selectFrames (now : Nat) (s : FrameStore) : List Frame :=
  let pass := passSelection now s
  if pass.length < 3 then backfill s pass else pass

/-- Frame selection as the claim words it: identical to selectFrames
except that the backfill appends the remainder of the most populated
angle in oldest-first order (no reversal). -/
def backfillOldestFirst (s : FrameStore) (acc : List Frame) : List Frame :=
  match bestAngle s.buffer with
  | none => acc
  | some b =>
    if 1 < (framesOfAngle s.buffer b).length then
      addUpTo3 acc ((framesOfAngle s.buffer b).dropLast)
    else acc

/-- The selector the claim describes, with oldest-first backfill. -/
def selectFramesClaimOldestFirst (now : Nat) (s : FrameStore) : List Frame :=
  let pass := passSelection now s
  if pass.length < 3 then backfillOldestFirst s pass else pass

/-- Per-class vehicle counts of one direction in a detector response. -/
structure ClassBreakdown where
  cars : Nat
  trucks : Nat
  buses : Nat
deriving DecidableEq

/-- The breakdown object of a detector response; either direction key
may be absent. -/
structure BreakdownPair where
  LS_to_SA : Option ClassBreakdown
  SA_to_LS : Option ClassBreakdown
deriving DecidableEq

/-- A successful JSON response of the external vehicle detector. -/
structure DetectorResult where
  LS_to_SA : Nat
  SA_to_LS : Nat
  total : Nat
  direction_uncertain : Bool
  breakdown : Option BreakdownPair
deriving DecidableEq

/-- Traffic level labels used by the analysis prompt. -/
inductive TrafficLevel
  | LIGHT
  | MODERATE
  | HEAVY
  | SEVERE
deriving DecidableEq

/-- The count-to-level rule of the spec, written from its words: 0-3
LIGHT, 4-10 MODERATE, above 10 HEAVY. -/
def statusForCount (n : Nat) : TrafficLevel :=
  if n ≤ 3 then TrafficLevel.LIGHT
  else if n ≤ 10 then TrafficLevel.MODERATE
  else TrafficLevel.HEAVY

/-- The four local variables lsToSaStatus, saToLsStatus, lsToSaCount,
saToLsCount of analyzeTraffic after the derivation block. -/
structure TrafficDerivation where
  lsToSaStatus : TrafficLevel
  saToLsStatus : TrafficLevel
  lsToSaCount : Nat
  saToLsCount : Nat
deriving DecidableEq

/-- The derivation block of analyzeTraffic: defaults LIGHT and 0, then
per direction an identical if chain when the detector result is
present and not direction-uncertain. -/
def deriveTraffic (d : Option DetectorResult) : TrafficDerivation :=
  match d with
  | none =>
    { lsToSaStatus := TrafficLevel.LIGHT, saToLsStatus := TrafficLevel.LIGHT,
      lsToSaCount := 0, saToLsCount := 0 }
  | some dc =>
    if dc.direction_uncertain then
      { lsToSaStatus := TrafficLevel.LIGHT, saToLsStatus := TrafficLevel.LIGHT,
        lsToSaCount := 0, saToLsCount := 0 }
    else
      { lsToSaStatus :=
          if dc.LS_to_SA ≤ 3 then TrafficLevel.LIGHT
          else if dc.LS_to_SA ≤ 10 then TrafficLevel.MODERATE
          else TrafficLevel.HEAVY,
        saToLsStatus :=
          if dc.SA_to_LS ≤ 3 then TrafficLevel.LIGHT
          else if dc.SA_to_LS ≤ 10 then TrafficLevel.MODERATE
          else TrafficLevel.HEAVY,
        lsToSaCount := dc.LS_to_SA,
        saToLsCount := dc.SA_to_LS }

/-- Printed name of a level inside the prompt. -/
def TrafficLevel.text : TrafficLevel → String
  | TrafficLevel.LIGHT => "LIGHT"
  | TrafficLevel.MODERATE => "MODERATE"
  | TrafficLevel.HEAVY => "HEAVY"
  | TrafficLevel.SEVERE => "SEVERE"

/-- The qualitative fallback branch of the countsInfo template in
analyzeTraffic, used when the detector result is absent or
direction-uncertain. -/
def qualitativeCountsInfo : String :=
  "\n⚠️ Automated vehicle detection unavailable. Use your visual assessment.\nUse the camera images to estimate traffic in each direction.\n"

/-- Breakdown defaulting of analyzeTraffic: a missing breakdown or a
missing direction key becomes zeros. -/
def breakdownOrZero (b : Option ClassBreakdown) : ClassBreakdown :=
  match b with
  | some x => x
  | none => { cars := 0, trucks := 0, buses := 0 }

/-- The counts branch of the countsInfo template, interpolating the
derived counts, levels and breakdowns. -/
def countsTemplate (dc : DetectorResult) : String :=
  let d := deriveTraffic (some dc)
  let bp := match dc.breakdown with
    | some p => p
    | none => { LS_to_SA := none, SA_to_LS := none }
  let lb := breakdownOrZero bp.LS_to_SA
  let sb := breakdownOrZero bp.SA_to_LS
  "\nVEHICLE COUNTS (from automated detection - these are ACCURATE):\n━━━━━━━━━━━━━━━━━━━━━━━━━━━━━━━━━━━━━━━━━━━━━━━━━━━━━━━━━━━━━━━━\n• LS→SA (Lesotho to South Africa): " ++ toString d.lsToSaCount ++ " vehicles - " ++ d.lsToSaStatus.text ++ "\n  Breakdown: " ++ toString lb.cars ++ " cars, " ++ toString lb.trucks ++ " trucks, " ++ toString lb.buses ++ " buses\n  \n• SA→LS (South Africa to Lesotho): " ++ toString d.saToLsCount ++ " vehicles - " ++ d.saToLsStatus.text ++ "\n  Breakdown: " ++ toString sb.cars ++ " cars, " ++ toString sb.trucks ++ " trucks, " ++ toString sb.buses ++ " buses\n\n• Total detected: " ++ toString dc.total ++ "\n━━━━━━━━━━━━━━━━━━━━━━━━━━━━━━━━━━━━━━━━━━━━━━━━━━━━━━━━━━━━━━━━\n\n⚠️ IMPORTANT: Use these EXACT counts. Do NOT try to count vehicles yourself.\nThe counts above are determined by automated detection and are authoritative.\n\n📌 TRUCK CONTEXT: Trucks take longer to process at border. If trucks are present:\n- Mention truck presence in your response\n- If cars are behind trucks, note they may experience slight delays\n- Example: \"3 cars waiting behind a truck being processed\"\n"

/-- The countsInfo conditional of analyzeTraffic: the counts branch
exactly when a detector result is present and not direction-uncertain,
the qualitative fallback otherwise. -/
def countsInfo (d : Option DetectorResult) : String :=
  match d with
  | some dc =>
    if dc.direction_uncertain then qualitativeCountsInfo else countsTemplate dc
  | none => qualitativeCountsInfo

/-- The analysis result object built by analyzeTraffic.  Failure
results carry only success and message; the remaining JS fields are
absent there, modelled as none.  The ISO timestamp string is
represented by the millisecond clock value it prints. -/
structure Analysis where
  success : Bool
  message : String
  timestamp : Option Nat
  frameTimestamp : Option Nat
  framesAnalyzed : Option Nat
  cached : Option Bool
deriving DecidableEq

/-- The module state read and written by analyzeTraffic. -/
structure ServerState where
  store : FrameStore
  latestAnalysis : Option Analysis
  lastAnalysisTime : Nat
deriving DecidableEq

/-- Oracle inputs of one analyzeTraffic invocation: what the detector
returns when called (none both for a failed call and for a null
result, since detectVehicles converts its failures to null), and what
the generative call produces (none means it throws, with the given
error message). -/
structure AnalyzeEnv where
  detectorResp : Option DetectorResult
  genResp : Option String
  genErrMsg : String

/-- Observable outcome of one analyzeTraffic invocation: the returned
result, the successor state, and which external calls were made. -/
structure AnalyzeOut where
  result : Analysis
  state2 : ServerState
  detectorCalled : Bool
  generativeCalled : Bool

/-- Failure message of the empty-buffer guard in analyzeTraffic. -/
def noFeedMsg : String :=
  "No camera feed available. The stream might be temporarily offline. Please try again in a moment."

/-- Failure message of the no-useful-frames guard in analyzeTraffic. -/
def limitedViewMsg : String :=
  "Camera view is currently limited. Please try again in a moment for a better view."

/-- The message of the TypeError thrown by reading latestFrame.timestamp
when framesToUse is empty (framesToUse[length - 1] is undefined). -/
def timestampTypeErrorMsg : String :=
  "Cannot read properties of undefined (reading " ++ String.singleton (Char.ofNat 39) ++ "timestamp" ++ String.singleton (Char.ofNat 39) ++ ")"

/-- A failure result carrying only success and message. -/
def failureResult (msg : String) : Analysis :=
  { success := false, message := msg, timestamp := none, frameTimestamp := none,
    framesAnalyzed := none, cached := none }

/-- The try block of analyzeTraffic, after the empty-buffer and cache
checks: guard on no useful frame and no preserved frame at all, select
frames, call the detector when a bridge frame was selected, call the
generative model, and build the result.  The catch clause converts any
thrown error into a failure result, covering both a throwing
generative call and the TypeError thrown on an empty selection. -/
def analyzeCore (env : AnalyzeEnv) (now : Nat) (s : ServerState) (userQuestion : Option String) : AnalyzeOut :=
  let uf := usefulFrames s.store.buffer
  if uf.isEmpty ∧ s.store.preserved.bridge.isNone ∧ s.store.preserved.processing.isNone ∧ s.store.preserved.wide.isNone then
    { result := failureResult limitedViewMsg, state2 := s,
      detectorCalled := false, generativeCalled := false }
  else
    let framesToUse := selectFrames now s.store
    let bridgeFrame := framesToUse.find? (fun f => decide (f.angleType = Angle.bridge))
    let detCalled := bridgeFrame.isSome
    match env.genResp with
    | none =>
      { result := failureResult ("Analysis temporarily unavailable: " ++ env.genErrMsg),
        state2 := s, detectorCalled := detCalled, generativeCalled := true }
    | some txt =>
      match framesToUse.getLast? with
      | none =>
        { result := failureResult ("Analysis temporarily unavailable: " ++ timestampTypeErrorMsg),
          state2 := s, detectorCalled := detCalled, generativeCalled := true }
      | some latestFrame =>
        let analysis : Analysis :=
          { success := true, message := txt, timestamp := some now,
            frameTimestamp := some latestFrame.timestamp,
            framesAnalyzed := some framesToUse.length, cached := some false }
        let s2 :=
          match userQuestion with
          | none => { store := s.store, latestAnalysis := some analysis, lastAnalysisTime := now }
          | some _ => s
        { result := analysis, state2 := s2,
          detectorCalled := detCalled, generativeCalled := true }

/-- analyzeTraffic in server.js: empty-buffer guard, then the
latest-analysis fast path for unprompted calls within the TTL, then
the core analysis. -/
def analyzeTraffic (env : AnalyzeEnv) (now : Nat) (s : ServerState) (userQuestion : Option String) : AnalyzeOut :=
  if s.store.buffer.isEmpty then
    { result := failureResult noFeedMsg, state2 := s,
      detectorCalled := false, generativeCalled := false }
  else
    match userQuestion, s.latestAnalysis with
    | none, some la =>
      if now - s.lastAnalysisTime < cacheTimeout then
        { result := la, state2 := s, detectorCalled := false, generativeCalled := false }
      else analyzeCore env now s userQuestion
    | _, _ => analyzeCore env now s userQuestion

/-- JS String.prototype.trim on a character list: strip leading and
trailing whitespace. -/
def trimChars (l : List Char) : List Char :=
  ((l.dropWhile Char.isWhitespace).reverse.dropWhile Char.isWhitespace).reverse

/-- Whether a list starts with the given pattern. -/
def leadsWith : List Char → List Char → Bool
  | _, [] => true
  | [], _ :: _ => false
  | c :: l, p :: ps => c == p && leadsWith l ps

/-- JS String.prototype.includes: the pattern occurs somewhere. -/
def hasSub : List Char → List Char → Bool
  | l, pat =>
    match l with
    | [] => pat.isEmpty
    | _ :: t => leadsWith l pat || hasSub t pat

/-- response.content[0].text.trim().toUpperCase() as a character
list. -/
def normResp (s : String) : List Char :=
  (trimChars s.data).map Char.toUpper

/-- The response parsing of classifyFrameAngle: the includes checks in
priority order bridge, processing, wide, defaulting to useless. -/
def parseAngleResponse (s : String) : Angle :=
  if hasSub (normResp s) (("BRIDGE").data) then Angle.bridge
  else if hasSub (normResp s) (("PROCESSING").data) then Angle.processing
  else if hasSub (normResp s) (("WIDE").data) then Angle.wide
  else Angle.useless

/-- classifyFrameAngle in server.js over the isClassifying flag and the
vision-call oracle (none means the call throws).  Returns the angle
and the flag value after the function returns: when another
classification is in flight the function returns useless at once and
leaves the flag alone; otherwise the finally clause resets it. -/
def classifyFrameAngle (isClassifying : Bool) (resp : Option String) : Angle × Bool :=
  if isClassifying then (Angle.useless, isClassifying)
  else
    match resp with
    | none => (Angle.useless, false)
    | some r => (parseAngleResponse r, false)

/-- Category word of a useful angle, as it appears in the prompt. -/
def angleName : Angle → List Char
  | Angle.bridge => ("BRIDGE").data
  | Angle.processing => ("PROCESSING").data
  | Angle.wide => ("WIDE").data
  | Angle.useless => []

/-- The useful category names contained in a response, in priority
order. -/
def usefulNamesContained (s : String) : List Angle :=
  [Angle.bridge, Angle.processing, Angle.wide].filter
    (fun a => hasSub (normResp s) (angleName a))

/-- The classifier as the claim words it: a response is mapped to a
useful category only when it unambiguously contains exactly one of the
three category names; any other response maps to useless. -/
def classifySpecExactlyOne (busy : Bool) (resp : Option String) : Angle :=
  if busy then Angle.useless
  else
    match resp with
    | none => Angle.useless
    | some s =>
      match usefulNamesContained s with
      | [a] => a
      | _ => Angle.useless

/-- Regular expressions, enough for the patterns of
categorizeQuestion: literals, the dot (any character except newline),
a true any-character (used to make matching unanchored, as JS match
is), the whitespace class, alternation, concatenation and star. -/
inductive Rx
  | emp
  | eps
  | chr (c : Char)
  | dot
  | anyc
  | ws
  | alt (a b : Rx)
  | cat (a b : Rx)
  | star (a : Rx)

/-- Whether a regex accepts the empty word. -/
def nullable : Rx → Bool
  | Rx.emp => false
  | Rx.eps => true
  | Rx.chr _ => false
  | Rx.dot => false
  | Rx.anyc => false
  | Rx.ws => false
  | Rx.alt a b => nullable a || nullable b
  | Rx.cat a b => nullable a && nullable b
  | Rx.star _ => true

/-- Smart concatenation, keeping derivative terms small. -/
def catS (a b : Rx) : Rx :=
  match a, b with
  | Rx.emp, _ => Rx.emp
  | _, Rx.emp => Rx.emp
  | Rx.eps, x => x
  | x, Rx.eps => x
  | x, y => Rx.cat x y

/-- Smart alternation, keeping derivative terms small. -/
def altS (a b : Rx) : Rx :=
  match a, b with
  | Rx.emp, x => x
  | x, Rx.emp => x
  | x, y => Rx.alt x y

/-- Brzozowski derivative of a regex by one character. -/
def deriv : Rx → Char → Rx
  | Rx.emp, _ => Rx.emp
  | Rx.eps, _ => Rx.emp
  | Rx.chr p, c => if p == c then Rx.eps else Rx.emp
  | Rx.dot, c => if c == Char.ofNat 10 then Rx.emp else Rx.eps
  | Rx.anyc, _ => Rx.eps
  | Rx.ws, c => if c.isWhitespace then Rx.eps else Rx.emp
  | Rx.alt a b, c => altS (deriv a c) (deriv b c)
  | Rx.cat a b, c =>
    if nullable a then altS (catS (deriv a c) b) (deriv b c)
    else catS (deriv a c) b
  | Rx.star a, c => catS (deriv a c) (Rx.star a)

/-- Whole-word match by iterated derivatives. -/
def rmatch (r : Rx) (l : List Char) : Bool :=
  nullable (l.foldl deriv r)

/-- JS RegExp.prototype.test / truthiness of String.prototype.match
without anchors: the pattern matches some substring. -/
def rtest (r : Rx) (l : List Char) : Bool :=
  rmatch (Rx.cat (Rx.star Rx.anyc) (Rx.cat r (Rx.star Rx.anyc))) l

/-- Literal pattern. -/
def lit (s : String) : Rx :=
  s.data.foldr (fun c r => Rx.cat (Rx.chr c) r) Rx.eps

/-- The pattern backslash-s-star. -/
def sws : Rx := Rx.star Rx.ws

/-- Pattern from-ls-or-lesotho, or to-sa-or-south-africa, or ls-to, of
the ls_to_sa branch of categorizeQuestion. -/
def reLsToSa : Rx :=
  Rx.alt (Rx.cat (lit ("from")) (Rx.cat sws (Rx.alt (lit ("ls")) (lit ("lesotho")))))
    (Rx.alt
      (Rx.cat (lit ("to"))
        (Rx.cat sws (Rx.alt (lit ("sa")) (Rx.cat (lit ("south")) (Rx.cat sws (lit ("africa")))))))
      (Rx.cat (lit ("ls")) (Rx.cat sws (Rx.alt (lit ("to")) (lit ("→"))))))

/-- Guard pattern from-sa-or-south-africa of the ls_to_sa branch. -/
def reFromSaGuard : Rx :=
  Rx.cat (lit ("from"))
    (Rx.cat sws (Rx.alt (lit ("sa")) (Rx.cat (lit ("south")) (Rx.cat sws (lit ("africa"))))))

/-- Pattern of the sa_to_ls branch of categorizeQuestion. -/
def reSaToLs : Rx :=
  Rx.alt
    (Rx.cat (lit ("from"))
      (Rx.cat sws (Rx.alt (lit ("sa")) (Rx.cat (lit ("south")) (Rx.cat sws (lit ("africa")))))))
    (Rx.alt
      (Rx.cat (lit ("to")) (Rx.cat sws (Rx.alt (lit ("ls")) (lit ("lesotho")))))
      (Rx.cat (lit ("sa")) (Rx.cat sws (Rx.alt (lit ("to")) (lit ("→"))))))

/-- Guard pattern from-ls-or-lesotho of the sa_to_ls branch. -/
def reFromLsGuard : Rx :=
  Rx.cat (lit ("from")) (Rx.cat sws (Rx.alt (lit ("ls")) (lit ("lesotho"))))

/-- Pattern of the good_time branch of categorizeQuestion. -/
def reGoodTime : Rx :=
  Rx.alt (Rx.cat (lit ("good")) (Rx.cat sws (lit ("time"))))
    (Rx.alt
      (Rx.cat (lit ("should"))
        (Rx.cat sws (Rx.cat (lit ("i")) (Rx.cat sws (Rx.alt (lit ("go")) (lit ("cross")))))))
      (Rx.alt (Rx.cat (lit ("best")) (Rx.cat sws (lit ("time"))))
        (Rx.alt (Rx.cat (lit ("right")) (Rx.cat sws (lit ("time"))))
          (Rx.alt
            (Rx.cat (lit ("okay")) (Rx.cat sws (Rx.cat (lit ("to")) (Rx.cat sws (lit ("cross"))))))
            (Rx.cat (lit ("safe")) (Rx.cat sws (Rx.cat (lit ("to")) (Rx.cat sws (lit ("cross"))))))))))

/-- Pattern of the queue branch of categorizeQuestion. -/
def reQueue : Rx :=
  Rx.alt (lit ("queue"))
    (Rx.alt (lit ("line"))
      (Rx.alt (lit ("wait"))
        (Rx.alt (lit ("waiting"))
          (Rx.alt (lit ("backed")) (Rx.alt (lit ("backup")) (lit ("long")))))))

/-- Guard pattern how-dot-star-traffic-busy-status of the queue
branch. -/
def reQueueGuard : Rx :=
  Rx.cat (lit ("how"))
    (Rx.cat (Rx.star Rx.dot) (Rx.alt (lit ("traffic")) (Rx.alt (lit ("busy")) (lit ("status")))))

/-- Pattern of the status branch of categorizeQuestion. -/
def reStatus : Rx :=
  Rx.alt (lit ("status"))
    (Rx.alt (lit ("traffic"))
      (Rx.alt (lit ("busy"))
        (Rx.alt (lit ("current"))
          (Rx.alt (lit ("now"))
            (Rx.alt (Rx.cat (lit ("right")) (Rx.cat sws (lit ("now"))))
              (Rx.alt
                (Rx.cat (lit ("at"))
                  (Rx.cat sws (Rx.cat (lit ("the")) (Rx.cat sws (lit ("moment"))))))
                (Rx.alt
                  (Rx.cat (lit ("how"))
                    (Rx.cat (Rx.star Rx.dot) (Rx.alt (lit ("is")) (lit ("are")))))
                  (Rx.cat (lit ("what"))
                    (Rx.cat (Rx.star Rx.dot) (Rx.alt (lit ("is")) (lit ("like"))))))))))))

/-- Cache categories, the keys of responseCache in server.js. -/
inductive Category
  | status
  | good_time
  | queue
  | ls_to_sa
  | sa_to_ls
deriving DecidableEq

/-- question.toLowerCase().trim() as a character list; the patterns
are matched case-insensitively against it, which on the lowered text
is plain matching of the lowercase literals. -/
def lowerTrim (s : String) : List Char :=
  trimChars (s.data.map Char.toLower)

/-- categorizeQuestion in server.js: ordered regex tests mapping a raw
question to a cache category, or none when nothing matches. -/
def categorizeQuestion (question : String) : Option Category :=
  let q := lowerTrim question
  if rtest reLsToSa q && !(rtest reFromSaGuard q) then some Category.ls_to_sa
  else if rtest reSaToLs q && !(rtest reFromLsGuard q) then some Category.sa_to_ls
  else if rtest reGoodTime q then some Category.good_time
  else if rtest reQueue q && !(rtest reQueueGuard q) then some Category.queue
  else if rtest reStatus q then some Category.status
  else none

/-- One entry of the category response cache. -/
structure CacheEntry where
  response : String
  frameTimestamp : Nat
  timestamp : Nat
deriving DecidableEq

/-- The responseCache object: one optional entry per category. -/
structure ResponseCache where
  status : Option CacheEntry
  good_time : Option CacheEntry
  queue : Option CacheEntry
  ls_to_sa : Option CacheEntry
  sa_to_ls : Option CacheEntry
deriving DecidableEq

/-- Field lookup of the responseCache object by category. -/
def ResponseCache.getCat (c : ResponseCache) : Category → Option CacheEntry
  | Category.status => c.status
  | Category.good_time => c.good_time
  | Category.queue => c.queue
  | Category.ls_to_sa => c.ls_to_sa
  | Category.sa_to_ls => c.sa_to_ls

/-- Field update of the responseCache object by category. -/
def ResponseCache.setCat (c : ResponseCache) (cat : Category) (e : CacheEntry) : ResponseCache :=
  match cat with
  | Category.status => { c with status := some e }
  | Category.good_time => { c with good_time := some e }
  | Category.queue => { c with queue := some e }
  | Category.ls_to_sa => { c with ls_to_sa := some e }
  | Category.sa_to_ls => { c with sa_to_ls := some e }

/-- getCachedResponse in server.js: nothing for a null category or an
empty slot, and a lazy TTL check on the entry age. -/
def getCachedResponse (now : Nat) (cache : ResponseCache) (category : Option Category) : Option CacheEntry :=
  match category with
  | none => none
  | some c =>
    match cache.getCat c with
    | none => none
    | some e => if now - e.timestamp < CACHE_TTL then some e else none

/-- cacheResponse in server.js: a null category leaves the cache
unchanged, otherwise the slot of the category is overwritten. -/
def cacheResponse (cache : ResponseCache) (category : Option Category) (resp : String) (frameTs : Nat) (now : Nat) : ResponseCache :=
  match category with
  | none => cache
  | some c => cache.setCat c { response := resp, frameTimestamp := frameTs, timestamp := now }

/-- Well-formedness of the preserved slots: a populated slot holds a
frame of its own angle.  Every state reachable by recording captures
satisfies it. -/
def preservedWF (s : FrameStore) : Prop :=
  ∀ a f, s.preserved.get a = some f → f.angleType = a

/-- Recording without the buffer trim, used to state that eviction
does not touch the preserved slots. -/
def recordNoTrim (s : FrameStore) (f : Frame) : FrameStore :=
  { buffer := s.buffer ++ [f], preserved := updatePreserved s.preserved f }

/-- The question how-apostrophe-s the queue at Engen from the claim. -/
def engenQueueQuestion : String :=
  "how" ++ String.singleton (Char.ofNat 39) ++ "s the queue at Engen"

/-- A preserved bridge frame old enough to be stale at clock 1000000. -/
def staleBridgeFrame : Frame := { img := 1, timestamp := 1, angleType := Angle.bridge }

/-- A buffered frame classified useless. -/
def uselessFrame : Frame := { img := 2, timestamp := 600000, angleType := Angle.useless }

/-- The failing state of the empty-selection claim: the buffer holds
only a useless frame and the single populated preserved slot is
stale, so the selector yields no frames, yet the no-useful-frames
guard of analyzeTraffic does not fire because it tests slot presence,
not freshness. -/
def c1State : ServerState :=
  { store := { buffer := [uselessFrame],
               preserved := { bridge := some staleBridgeFrame, processing := none, wide := none } },
    latestAnalysis := none, lastAnalysisTime := 0 }

/-- Oracle environment: detector degraded, generative call answering a
fixed text. -/
def cEnv : AnalyzeEnv := { detectorResp := none, genResp := some ("All clear."), genErrMsg := "" }

/-- A wide frame captured at 50 ms. -/
def wideF : Frame := { img := 3, timestamp := 50, angleType := Angle.wide }

/-- A bridge frame captured at 100 ms. -/
def bridgeF : Frame := { img := 4, timestamp := 100, angleType := Angle.bridge }

/-- State whose selection is a bridge frame followed by an older wide
frame: the last selected frame is not the newest one. -/
def c3State : ServerState :=
  { store := { buffer := [wideF, bridgeF],
               preserved := { bridge := none, processing := none, wide := none } },
    latestAnalysis := none, lastAnalysisTime := 0 }

/-- Simple one-frame state for the cache idempotence scenario. -/
def c2State : ServerState :=
  { store := { buffer := [bridgeF],
               preserved := { bridge := none, processing := none, wide := none } },
    latestAnalysis := none, lastAnalysisTime := 0 }

/-- Four bridge frames in capture order, for the backfill-order
scenario. -/
def b1 : Frame := { img := 11, timestamp := 1, angleType := Angle.bridge }

/-- Second bridge frame of the backfill scenario. -/
def b2 : Frame := { img := 12, timestamp := 2, angleType := Angle.bridge }

/-- Third bridge frame of the backfill scenario. -/
def b3 : Frame := { img := 13, timestamp := 3, angleType := Angle.bridge }

/-- Fourth, most recent bridge frame of the backfill scenario. -/
def b4 : Frame := { img := 14, timestamp := 4, angleType := Angle.bridge }

/-- Store whose buffer holds the four bridge frames: the per-angle
pass selects b4 and the backfill must supply two of the remaining
three. -/
def c4Store : FrameStore :=
  { buffer := [b1, b2, b3, b4],
    preserved := { bridge := none, processing := none, wide := none } }

/-- The newest capture timestamp among a list of frames. -/
def newestTimestamp (l : List Frame) : Nat :=
  l.foldl (fun m f => max m f.timestamp) 0

/-- A concrete direction-uncertain detector result. -/
def uncertainDR : DetectorResult :=
  { LS_to_SA := 5, SA_to_LS := 6, total := 11, direction_uncertain := true, breakdown := none }

theorem sliceLast_length_le (n : Nat) (l : List α) : (sliceLast n l).length ≤ n := by
  simp only [sliceLast, List.length_drop]
  omega

theorem sliceLast_of_le {n : Nat} {l : List α} (h : l.length ≤ n) : sliceLast n l = l := by
  simp only [sliceLast, Nat.sub_eq_zero_of_le h, List.drop_zero]

theorem drop_append_of_length_le {m : Nat} {l r : List α} (h : l.length ≤ m) :
    List.drop m (l ++ r) = List.drop (m - l.length) r := by
  have h2 : m = l.length + (m - l.length) := by omega
  rw [h2, List.drop_append]
  congr 1
  omega

theorem sliceLast_drop_append (n k : Nat) (l r : List α) (h : n + k ≤ l.length) :
    sliceLast n (l.drop k ++ r) = sliceLast n (l ++ r) := by
  by_cases hr : n ≤ r.length
  · rw [sliceLast, sliceLast, drop_append_of_length_le, drop_append_of_length_le]
    · congr 1
      simp only [List.length_append, List.length_drop]
      omega
    · simp only [List.length_append]
      omega
    · simp only [List.length_append, List.length_drop]
      omega
  · rw [sliceLast, sliceLast, List.drop_append_of_le_length, List.drop_append_of_le_length,
      List.drop_drop]
    · congr 2
      simp only [List.length_append, List.length_drop]
      omega
    · simp only [List.length_append]
      omega
    · simp only [List.length_append, List.length_drop]
      omega

theorem record_buffer_length_le {s : FrameStore} (f : Frame) :
    (record s f).buffer.length ≤ maxBufferSize := by
  simp only [record]
  split
  · exact sliceLast_length_le _ _
  · rename_i hle
    simp only [List.length_append, List.length_cons, List.length_nil] at hle ⊢
    omega

theorem foldl_record_buffer (fs : List Frame) : ∀ s : FrameStore, s.buffer.length ≤ maxBufferSize →
    (List.foldl record s fs).buffer = sliceLast maxBufferSize (s.buffer ++ fs) := by
  induction fs with
  | nil =>
    intro s h
    simp only [List.foldl_nil, List.append_nil]
    exact (sliceLast_of_le h).symm
  | cons f fs ih =>
    intro s h
    rw [List.foldl_cons, ih (record s f) (record_buffer_length_le f)]
    show sliceLast maxBufferSize
        ((if maxBufferSize < (s.buffer ++ [f]).length then sliceLast maxBufferSize (s.buffer ++ [f])
          else s.buffer ++ [f]) ++ fs) = _
    split
    · rename_i hlt
      have hlen : (s.buffer ++ [f]).length = s.buffer.length + 1 := by
        simp [List.length_append]
      have heq : sliceLast maxBufferSize (s.buffer ++ [f]) = (s.buffer ++ [f]).drop 1 := by
        rw [sliceLast]
        congr 1
        omega
      rw [heq, sliceLast_drop_append maxBufferSize 1 (s.buffer ++ [f]) fs (by omega)]
      simp [List.append_assoc]
    · simp [List.append_assoc]

/-- C5: after every sequence of recorded captures the rolling buffer
is exactly the maxBufferSize most recent captured frames in capture
order (the oldest entries are the ones dropped), and its length never
exceeds maxBufferSize, which is 12. -/
theorem buffer_bound (fs : List Frame) :
    (recordAll fs).buffer = sliceLast maxBufferSize fs ∧
    (recordAll fs).buffer.length ≤ maxBufferSize ∧ maxBufferSize = 12 := by
  have h := foldl_record_buffer fs initialStore (by simp [initialStore])
  have hb : initialStore.buffer = [] := rfl
  rw [hb, List.nil_append] at h
  refine ⟨h, ?_, rfl⟩
  rw [recordAll, h]
  exact sliceLast_length_le _ _

theorem foldl_record_preserved (fs : List Frame) : ∀ s : FrameStore,
    (List.foldl record s fs).preserved = List.foldl updatePreserved s.preserved fs := by
  induction fs with
  | nil => intro s; rfl
  | cons f fs ih =>
    intro s
    rw [List.foldl_cons, List.foldl_cons, ih (record s f)]
    rfl

theorem foldl_recordNoTrim_preserved (fs : List Frame) : ∀ s : FrameStore,
    (List.foldl recordNoTrim s fs).preserved = List.foldl updatePreserved s.preserved fs := by
  induction fs with
  | nil => intro s; rfl
  | cons f fs ih =>
    intro s
    rw [List.foldl_cons, List.foldl_cons, ih (recordNoTrim s f)]
    rfl

theorem updatePreserved_get {a : Angle} (ha : a ≠ Angle.useless) (p : Preserved) (f : Frame) :
    (updatePreserved p f).get a = if f.angleType = a then some f else p.get a := by
  rw [updatePreserved]
  split
  · rename_i hu
    have : ¬ f.angleType = a := by
      rw [hu]
      exact fun hc => ha hc.symm
    simp [this]
  · cases hft : f.angleType <;> cases a <;>
      simp_all [Preserved.set, Preserved.get]

theorem foldl_update_get {a : Angle} (ha : a ≠ Angle.useless) (fs : List Frame) :
    ∀ p : Preserved,
    (List.foldl updatePreserved p fs).get a =
      List.foldl (fun acc f => if f.angleType = a then some f else acc) (p.get a) fs := by
  induction fs with
  | nil => intro p; rfl
  | cons f fs ih =>
    intro p
    rw [List.foldl_cons, List.foldl_cons, ih (updatePreserved p f), updatePreserved_get ha]

theorem lastWith_eq_foldl (a : Angle) (fs : List Frame) :
    lastWith (fun f => decide (f.angleType = a)) fs =
      List.foldl (fun acc f => if f.angleType = a then some f else acc) none fs := by
  rw [lastWith]
  congr 1
  funext acc f
  by_cases h : f.angleType = a <;> simp [h]

theorem recordAll_preserved_get {a : Angle} (ha : a ≠ Angle.useless) (fs : List Frame) :
    (recordAll fs).preserved.get a = lastWith (fun f => decide (f.angleType = a)) fs := by
  rw [recordAll, foldl_record_preserved, foldl_update_get ha, lastWith_eq_foldl]
  cases a <;> rfl

theorem foldl_last_angle (a : Angle) (fs : List Frame) :
    ∀ init : Option Frame, (∀ g, init = some g → g.angleType = a) →
    ∀ f, List.foldl (fun acc f => if f.angleType = a then some f else acc) init fs = some f →
      f.angleType = a := by
  induction fs with
  | nil =>
    intro init hinit f h
    exact hinit f h
  | cons g fs ih =>
    intro init hinit f h
    rw [List.foldl_cons] at h
    refine ih _ ?_ f h
    intro g2 hg2
    by_cases hga : g.angleType = a
    · simp only [hga, if_pos] at hg2
      cases hg2
      exact hga
    · simp only [hga, if_neg, if_false] at hg2
      exact hinit g2 hg2

theorem lastWith_angle {a : Angle} {fs : List Frame} {f : Frame}
    (h : lastWith (fun g => decide (g.angleType = a)) fs = some f) : f.angleType = a := by
  rw [lastWith_eq_foldl] at h
  exact foldl_last_angle a fs none (fun g hg => Option.noConfusion hg) f h

/-- C6: for every capture sequence, each useful-angle preserved slot
holds exactly the most recently captured frame of that angle (none if
there has been none); the useless key has no slot; a populated slot
never holds a useless-angle frame (it holds a frame of its own
angle); and the buffer trim never touches the preserved slots (the
preserved state equals the one produced by recording with no
eviction at all). -/
theorem preserved_monotonic (fs : List Frame) :
    (recordAll fs).preserved.bridge = lastWith (fun f => decide (f.angleType = Angle.bridge)) fs ∧
    (recordAll fs).preserved.processing = lastWith (fun f => decide (f.angleType = Angle.processing)) fs ∧
    (recordAll fs).preserved.wide = lastWith (fun f => decide (f.angleType = Angle.wide)) fs ∧
    (recordAll fs).preserved.get Angle.useless = none ∧
    preservedWF (recordAll fs) ∧
    (recordAll fs).preserved = (List.foldl recordNoTrim initialStore fs).preserved := by
  refine ⟨@recordAll_preserved_get Angle.bridge (by decide) fs,
    @recordAll_preserved_get Angle.processing (by decide) fs,
    @recordAll_preserved_get Angle.wide (by decide) fs, rfl, ?_, ?_⟩
  · intro a f h
    cases a with
    | bridge => exact lastWith_angle ((recordAll_preserved_get (by decide) fs).symm.trans h)
    | processing => exact lastWith_angle ((recordAll_preserved_get (by decide) fs).symm.trans h)
    | wide => exact lastWith_angle ((recordAll_preserved_get (by decide) fs).symm.trans h)
    | useless => exact Option.noConfusion h
  · rw [recordAll, foldl_record_preserved, foldl_recordNoTrim_preserved]

/-- Witness instantiating the preserved-slot theorem on a concrete
capture sequence: a bridge frame followed by a useless frame and a
newer bridge frame leaves the newest bridge frame in the slot. -/
theorem preserved_monotonic_witness :
    (recordAll [b1, uselessFrame, b4]).preserved.bridge =
      lastWith (fun f => decide (f.angleType = Angle.bridge)) [b1, uselessFrame, b4] ∧
    (recordAll [b1, uselessFrame, b4]).preserved.get Angle.useless = none := by
  have h := preserved_monotonic [b1, uselessFrame, b4]
  exact ⟨h.1, h.2.2.2.1⟩

/-- C7: the count-to-level rule is 0-3 LIGHT, 4-10 MODERATE, above 10
HEAVY; the very same rule is applied to both directions of a trusted
detector result; SEVERE is never derived from a count; and an absent
detector result and a direction-uncertain one produce the same
qualitative fallback prompt section, with no count-derived levels in
it. -/
theorem traffic_level_derivation :
    (∀ n, n ≤ 3 → statusForCount n = TrafficLevel.LIGHT) ∧
    (∀ n, 4 ≤ n → n ≤ 10 → statusForCount n = TrafficLevel.MODERATE) ∧
    (∀ n, 10 < n → statusForCount n = TrafficLevel.HEAVY) ∧
    (∀ dc : DetectorResult, dc.direction_uncertain = false →
      (deriveTraffic (some dc)).lsToSaStatus = statusForCount dc.LS_to_SA ∧
      (deriveTraffic (some dc)).saToLsStatus = statusForCount dc.SA_to_LS) ∧
    (∀ n, statusForCount n ≠ TrafficLevel.SEVERE) ∧
    countsInfo none = qualitativeCountsInfo ∧
    (∀ dc : DetectorResult, dc.direction_uncertain = true →
      countsInfo (some dc) = countsInfo none) := by
  refine ⟨?_, ?_, ?_, ?_, ?_, rfl, ?_⟩
  · intro n h
    simp [statusForCount, h]
  · intro n h4 h10
    simp only [statusForCount]
    rw [if_neg (by omega), if_pos h10]
  · intro n h
    simp only [statusForCount]
    rw [if_neg (by omega), if_neg (by omega)]
  · intro dc h
    simp [deriveTraffic, h, statusForCount]
  · intro n
    simp only [statusForCount]
    split
    · exact fun hc => TrafficLevel.noConfusion hc
    · split
      · exact fun hc => TrafficLevel.noConfusion hc
      · exact fun hc => TrafficLevel.noConfusion hc
  · intro dc h
    simp [countsInfo, h]

/-- Witness for the level-derivation theorem at concrete counts 2, 7
and 11 and at a concrete direction-uncertain detector result. -/
theorem traffic_level_derivation_witness :
    statusForCount 2 = TrafficLevel.LIGHT ∧
    statusForCount 7 = TrafficLevel.MODERATE ∧
    statusForCount 11 = TrafficLevel.HEAVY ∧
    countsInfo (some uncertainDR) = countsInfo none := by
  have h := traffic_level_derivation
  exact ⟨h.1 2 (by decide), h.2.1 7 (by decide) (by decide), h.2.2.1 11 (by decide),
    h.2.2.2.2.2.2 _ rfl⟩

/-- C10: a classification attempt that actually runs (the flag was
clear when it started) always returns with the flag cleared again,
whatever the vision call does: successful classification, a response
naming no useful category, and a thrown error all pass through the
finally clause. -/
theorem isClassifying_reset (resp : Option String) :
    (classifyFrameAngle false resp).2 = false := by
  cases resp <;> rfl

/-- C8 counterexample: a response naming two useful categories does
not unambiguously contain exactly one category name, so the claim
maps it to USELESS, but classifyFrameAngle returns BRIDGE (the first
includes check wins). -/
theorem classify_two_names_not_useless :
    (classifyFrameAngle false (some ("BRIDGE PROCESSING"))).1 = Angle.bridge ∧
    classifySpecExactlyOne false (some ("BRIDGE PROCESSING")) = Angle.useless ∧
    (classifyFrameAngle false (some ("BRIDGE PROCESSING"))).1 ≠
      classifySpecExactlyOne false (some ("BRIDGE PROCESSING")) := by
  refine ⟨by decide, by decide, by decide⟩

/-- C8 amended: with the flag clear, a response maps to the first
category in priority order bridge, processing, wide whose name it
contains after trimming and uppercasing, and to USELESS when it
contains none; the flag is always clear afterwards; a request while
one is in flight returns USELESS at once leaving the flag set; and a
thrown vision call yields USELESS. -/
theorem classify_first_priority_name (resp : Option String) (s : String) :
    (classifyFrameAngle false (some s)).1 = (usefulNamesContained s).headD Angle.useless ∧
    (classifyFrameAngle false (some s)).2 = false ∧
    classifyFrameAngle true resp = (Angle.useless, true) ∧
    classifyFrameAngle false none = (Angle.useless, false) := by
  refine ⟨?_, rfl, rfl, rfl⟩
  show parseAngleResponse s = _
  rw [parseAngleResponse, usefulNamesContained]
  cases hb : hasSub (normResp s) (("BRIDGE").data) <;>
    cases hp : hasSub (normResp s) (("PROCESSING").data) <;>
      cases hw : hasSub (normResp s) (("WIDE").data) <;>
        simp [List.filter, angleName, hb, hp, hw]

/-- C9: the three question examples categorize as the claim states,
and a null category bypasses the response cache entirely: lookup is
always a miss and the store operation leaves the cache unchanged. -/
theorem categorize_examples_and_null_bypass :
    categorizeQuestion engenQueueQuestion = some Category.queue ∧
    categorizeQuestion ("going from SA to Lesotho") = some Category.sa_to_ls ∧
    categorizeQuestion ("tell me a joke") = none ∧
    (∀ now cache, getCachedResponse now cache none = none) ∧
    (∀ cache resp ft now, cacheResponse cache none resp ft now = cache) := by
  refine ⟨by decide, by decide, by decide, fun now cache => rfl, fun cache resp ft now => rfl⟩

/-- C1 failing input, evaluated on the embedded code: in c1State the
Frame Selector yields no frames (the buffer holds only a useless
frame and the lone preserved slot is stale), yet analyzeTraffic makes
the generative call, and the failure result it returns carries the
generic temporarily-unavailable message produced by the caught
TypeError, not either user-facing camera-unavailable message.  The
detector is indeed not called. -/
theorem analyze_empty_selection_consumes_generative_call :
    selectFrames 1000000 c1State.store = [] ∧
    (analyzeTraffic cEnv 1000000 c1State none).generativeCalled = true ∧
    (analyzeTraffic cEnv 1000000 c1State none).detectorCalled = false ∧
    (analyzeTraffic cEnv 1000000 c1State none).result.success = false ∧
    (analyzeTraffic cEnv 1000000 c1State none).result.message =
      "Analysis temporarily unavailable: " ++ timestampTypeErrorMsg ∧
    (analyzeTraffic cEnv 1000000 c1State none).result.message ≠ noFeedMsg ∧
    (analyzeTraffic cEnv 1000000 c1State none).result.message ≠ limitedViewMsg := by
  refine ⟨by decide, by decide, by decide, by decide, by decide, by decide, by decide⟩

/-- C3 failing input, evaluated on the embedded code: in c3State the
selected frames are the bridge frame captured at 100 followed by the
wide frame captured at 50; the analysis succeeds, the newest selected
capture timestamp is 100, but frameTimestamp is taken from the last
element of the selection list and is 50. -/
theorem frameTimestamp_not_newest_frame :
    selectFrames 200 c3State.store = [bridgeF, wideF] ∧
    newestTimestamp (selectFrames 200 c3State.store) = 100 ∧
    (analyzeTraffic cEnv 200 c3State none).result.success = true ∧
    (analyzeTraffic cEnv 200 c3State none).result.frameTimestamp = some 50 ∧
    (analyzeTraffic cEnv 200 c3State none).result.frameTimestamp ≠
      some (newestTimestamp (selectFrames 200 c3State.store)) := by
  refine ⟨by decide, by decide, by decide, by decide, by decide⟩

theorem analyze_success_shape (env : AnalyzeEnv) (t : Nat) (s : ServerState)
    (h0 : s.latestAnalysis = none)
    (h1 : (analyzeTraffic env t s none).result.success = true) :
    (analyzeTraffic env t s none).state2.store = s.store ∧
    (analyzeTraffic env t s none).state2.latestAnalysis = some (analyzeTraffic env t s none).result ∧
    (analyzeTraffic env t s none).state2.lastAnalysisTime = t ∧
    s.store.buffer.isEmpty = false ∧
    (analyzeTraffic env t s none).result.cached = some false := by
  by_cases hb : s.store.buffer.isEmpty
  · simp [analyzeTraffic, hb, failureResult] at h1
  · simp only [analyzeTraffic, hb, h0, Bool.false_eq_true, if_false] at h1 ⊢
    by_cases hg : (usefulFrames s.store.buffer).isEmpty ∧ s.store.preserved.bridge.isNone ∧
        s.store.preserved.processing.isNone ∧ s.store.preserved.wide.isNone
    · simp [analyzeCore, hg, failureResult] at h1
    · simp only [analyzeCore, hg, if_false] at h1 ⊢
      cases hgen : env.genResp with
      | none => simp [hgen, failureResult] at h1
      | some txt =>
        simp only [hgen] at h1 ⊢
        cases hlast : (selectFrames t s.store).getLast? with
        | none => simp [hlast, failureResult] at h1
        | some lf => simp [hlast]

/-- C2 counterexample: an unprompted analysis at clock 1000 followed
by an unprompted call at clock 2000 (within the 180000 ms TTL, no
intervening analysis).  The second call returns the first result
unchanged, but that result carries cached = false, not cached = true:
the fast path returns the stored object without marking it cached. -/
theorem analyze_cache_not_marked_cached :
    (analyzeTraffic cEnv 1000 c2State none).result.success = true ∧
    (analyzeTraffic cEnv 2000 (analyzeTraffic cEnv 1000 c2State none).state2 none).result
      = (analyzeTraffic cEnv 1000 c2State none).result ∧
    (analyzeTraffic cEnv 2000 (analyzeTraffic cEnv 1000 c2State none).state2 none).result.cached
      ≠ some true := by
  refine ⟨by decide, by decide, by decide⟩

/-- C2 amended: for every pair of unprompted analyze calls where the
first succeeds from a state with no prior latest analysis and the
second runs on the resulting state within the TTL, the second call
returns a result identical to the first, and that result carries
cached = false (not cached = true as claimed). -/
theorem analyze_cache_idempotent_cached_false (env1 env2 : AnalyzeEnv) (t1 t2 : Nat)
    (s : ServerState) (h0 : s.latestAnalysis = none)
    (h1 : (analyzeTraffic env1 t1 s none).result.success = true)
    (h2 : t2 - t1 < cacheTimeout) :
    (analyzeTraffic env2 t2 (analyzeTraffic env1 t1 s none).state2 none).result
      = (analyzeTraffic env1 t1 s none).result ∧
    (analyzeTraffic env2 t2 (analyzeTraffic env1 t1 s none).state2 none).result.cached
      = some false := by
  obtain ⟨hstore, hla, htime, hb, hcached⟩ := analyze_success_shape env1 t1 s h0 h1
  generalize hr : analyzeTraffic env1 t1 s none = out at hstore hla htime hcached ⊢
  have hmain : (analyzeTraffic env2 t2 out.state2 none).result = out.result := by
    simp only [analyzeTraffic, hstore, hb, Bool.false_eq_true, if_false, hla, htime, h2, if_pos]
  exact ⟨hmain, hmain.symm ▸ hcached⟩

/-- Witness instantiating the amended cache theorem on the concrete
two-call scenario. -/
theorem analyze_cache_idempotent_cached_false_witness :
    (analyzeTraffic cEnv 181000 (analyzeTraffic cEnv 100000 c2State none).state2 none).result
      = (analyzeTraffic cEnv 100000 c2State none).result ∧
    (analyzeTraffic cEnv 181000 (analyzeTraffic cEnv 100000 c2State none).state2 none).result.cached
      = some false :=
  analyze_cache_idempotent_cached_false cEnv cEnv 100000 181000 c2State rfl (by decide) (by decide)

theorem addUpTo3_append_take (l : List Frame) : ∀ acc : List Frame,
    (∀ f ∈ l, f ∉ acc) → l.Nodup →
    addUpTo3 acc l = acc ++ l.take (3 - acc.length) := by
  induction l with
  | nil => intro acc _ _; simp [addUpTo3]
  | cons f rest ih =>
    intro acc hdisj hnd
    rw [addUpTo3]
    by_cases h3 : 3 ≤ acc.length
    · rw [if_pos h3]
      have h0 : 3 - acc.length = 0 := by omega
      simp [h0]
    · rw [if_neg h3]
      have hfacc : f ∉ acc := hdisj f (List.mem_cons_self f rest)
      rw [if_neg hfacc]
      have hd : ∀ g ∈ rest, g ∉ acc ++ [f] := by
        intro g hg
        simp only [List.mem_append, List.mem_singleton]
        rintro (hga | hgf)
        · exact hdisj g (List.mem_cons_of_mem f hg) hga
        · subst hgf
          exact (List.nodup_cons.mp hnd).1 hg
      have hn : rest.Nodup := (List.nodup_cons.mp hnd).2
      rw [ih (acc ++ [f]) hd hn]
      have hlen : (acc ++ [f]).length = acc.length + 1 := by simp
      have harith : 3 - acc.length = (3 - (acc.length + 1)) + 1 := by omega
      rw [hlen, harith, List.take_succ_cons, List.append_assoc]
      rfl

theorem mem_framesOfAngle {buf : List Frame} {a : Angle} {f : Frame}
    (h : f ∈ framesOfAngle buf a) : f.angleType = a := by
  rw [framesOfAngle] at h
  exact of_decide_eq_true (List.mem_filter.mp h).2

theorem pick_angleType {now : Nat} {s : FrameStore} {a : Angle} {g : Frame}
    (hwf : preservedWF s) (h : pickForAngle now s a = some g) : g.angleType = a := by
  rw [pickForAngle] at h
  cases hL : (framesOfAngle s.buffer a).getLast? with
  | some f =>
    simp only [hL, Option.some.injEq] at h
    subst h
    have hne : framesOfAngle s.buffer a ≠ [] := by
      intro hnil
      rw [hnil] at hL
      exact Option.noConfusion hL
    have hg := List.getLast?_eq_getLast _ hne
    rw [hg, Option.some.injEq] at hL
    subst hL
    exact mem_framesOfAngle (List.getLast_mem hne)
  | none =>
    simp only [hL] at h
    cases hp : s.preserved.get a with
    | none => simp [hp] at h
    | some pf =>
      simp only [hp] at h
      by_cases hf : isFrameFresh now pf
      · simp only [hf, if_true, Option.some.injEq] at h
        subst h
        exact hwf a pf hp
      · simp [hf] at h

theorem pick_of_nonempty {now : Nat} {s : FrameStore} {a : Angle}
    (h : framesOfAngle s.buffer a ≠ []) :
    pickForAngle now s a = (framesOfAngle s.buffer a).getLast? := by
  rw [pickForAngle, List.getLast?_eq_getLast _ h]

theorem getLast_not_mem_dropLast {l : List Frame} (hnd : l.Nodup) (hne : l ≠ []) :
    l.getLast hne ∉ l.dropLast := by
  intro hmem
  have hsplit := List.dropLast_append_getLast hne
  rw [← hsplit] at hnd
  exact (List.disjoint_of_nodup_append hnd) hmem (List.mem_singleton.mpr rfl)

/-- C4 counterexample: with four bridge frames b1, b2, b3, b4 buffered
in capture order, the per-angle pass selects b4 and the code
backfills b3 then b2 (newest first among the remainder), whereas the
claimed oldest-first backfill would add b1 then b2; the two selectors
disagree at this store. -/
theorem backfill_not_oldest_first :
    selectFrames 0 c4Store = [b4, b3, b2] ∧
    selectFramesClaimOldestFirst 0 c4Store = [b4, b1, b2] ∧
    selectFrames 0 c4Store ≠ selectFramesClaimOldestFirst 0 c4Store := by
  refine ⟨by decide, by decide, by decide⟩

/-- C4 amended: when the per-angle pass selects fewer than 3 frames
and the most populated buffer angle has more than one frame, the
selection is the pass followed by the remaining buffered
frames, excluding the already-selected most recent one, in
newest-first order, truncated at 3 selected frames.  The distinctness
hypotheses hold in every state reached by recording distinct
captures. -/
theorem backfill_newest_first (now : Nat) (s : FrameStore)
    (hnd : s.buffer.Nodup) (hwf : preservedWF s)
    (hshort : (passSelection now s).length < 3)
    (b : Angle) (hb : bestAngle s.buffer = some b)
    (hlen : 1 < (framesOfAngle s.buffer b).length) :
    selectFrames now s =
      passSelection now s ++
        ((framesOfAngle s.buffer b).dropLast.reverse).take (3 - (passSelection now s).length) := by
  have hndA : (framesOfAngle s.buffer b).Nodup :=
    List.Nodup.filter _ (List.Nodup.filter _ hnd)
  have hne : framesOfAngle s.buffer b ≠ [] := by
    intro h0
    rw [h0] at hlen
    simp at hlen
  have hndD : ((framesOfAngle s.buffer b).dropLast.reverse).Nodup :=
    List.nodup_reverse.mpr ((List.dropLast_sublist _).nodup hndA)
  have hdisj : ∀ f ∈ (framesOfAngle s.buffer b).dropLast.reverse, f ∉ passSelection now s := by
    intro f hf hfp
    rw [List.mem_reverse] at hf
    have hfb : f.angleType = b :=
      mem_framesOfAngle (List.Sublist.mem hf (List.dropLast_sublist _))
    obtain ⟨a, ha, hpick⟩ := List.mem_filterMap.mp hfp
    have hab : a = b := (pick_angleType hwf hpick).symm.trans hfb
    subst hab
    rw [pick_of_nonempty hne, List.getLast?_eq_getLast _ hne, Option.some.injEq] at hpick
    subst hpick
    exact getLast_not_mem_dropLast hndA hne hf
  simp only [selectFrames]
  rw [if_pos hshort, backfill]
  simp only [hb]
  rw [if_pos hlen]
  exact addUpTo3_append_take _ _ hdisj hndD

/-- Witness instantiating the amended backfill theorem on the
four-bridge-frame store. -/
theorem backfill_newest_first_witness :
    selectFrames 0 c4Store =
      passSelection 0 c4Store ++
        ((framesOfAngle c4Store.buffer Angle.bridge).dropLast.reverse).take
          (3 - (passSelection 0 c4Store).length) :=
  backfill_newest_first 0 c4Store (by decide)
    (by intro a f h; cases a <;> exact Option.noConfusion h)
    (by decide) Angle.bridge (by decide) (by decide)

end Maseru
